import Mathlib

set_option autoImplicit false

/-!
Verification development for the dialogue-dispatch repository
(`Agent/llms/base_llm.py` and `Agent/llms/openai.py`).

The Python code is shallowly embedded as executable Lean definitions:

* `LMTemplateParser` models `base_llm.LMTemplateParser` (the template
  renderer): role-table construction (`__init__`), begin-phrase
  formatting (`_format_begin`), per-turn rendering (`_prompt2str`) and the
  top-level `__call__`.
* `runChat` models the retry loop of `openai.GPTAPI._chat`; `findValidKey`
  models its inner key-selection `while True` loop; `generate_request_data`
  models `GPTAPI.generate_request_data`; `chat` models `GPTAPI.chat`
  (the thread-pool fan-out, with the sequential `task.result()` collection).
* `raceStep` / `raceRun` / `admissibleGo` give a small two-worker
  interleaving semantics used to analyse the `with Lock():` critical
  sections of `_chat`.

Python exceptions are represented by the `PyErr` type; fallible code
returns `Except PyErr _`.  Loops that may not terminate in Python
(`while max_num_retries < self.retry` with non-counting passes, and the
key-selection `while True`) are modelled with explicit fuel; a result of
`RunRes.fuelOut` / `RunRes.stuck` for every fuel value witnesses
divergence of the source loop.

The attributes supplied by the (absent) `base_api.BaseAPILLM` base class
(`self.retry`, `self.orgs`, `self.template_parser`) are plain constructor
data and are passed as parameters.
-/

/-- Python exception values relevant to the embedded code. -/
inductive PyErr where
  | attributeError
  | typeError
  | keyError (k : String)
  | assertionError (msg : String)
  | unboundLocal
  | notImplementedError (msg : String)
  | runtimeError (msg : String)
deriving DecidableEq, Repr

/-- The value stored under the `begin` key of a meta-template item: either a
plain string, or a dict with optional `with_name`, `name` (a name → phrase
map) and `without_name` entries. -/
inductive BeginVal where
  | str (s : String)
  | dict (with_name : Option String) (nameMap : List (String × String))
      (without_name : Option String)
deriving DecidableEq, Repr

/-- One meta-template item, as stored (after `item.copy()`) in
`LMTemplateParser.roles`.  `none` for a field models the key being absent
from the Python dict.  `begin_` / `end_` stand for the `begin` / `end`
keys (`end` is reserved in Lean). -/
structure RoleConfig where
  role : String
  begin_ : Option BeginVal := none
  end_ : Option String := none
  fallback_role : Option String := none
  generate : Option Bool := none
deriving DecidableEq, Repr

/-- One element of a dialogue list: either a raw string or a message dict
`{role, content?, name?}`. -/
inductive Turn where
  | str (s : String)
  | msg (role : String) (content : Option String) (name : Option String)
deriving DecidableEq, Repr

/-- The argument of `LMTemplateParser.__call__`: a plain string or a list
of turns. -/
inductive Dialog where
  | str (s : String)
  | list (ts : List Turn)
deriving DecidableEq, Repr

/-- Lookup in the `self.roles` dict (an association list keyed by role
name, in insertion order), i.e. `self.roles.get(r)`. -/
def lookupRole (rs : List (String × RoleConfig)) (r : String) : Option RoleConfig :=
  match rs with
  | [] => none
  | (k, v) :: rest => if k = r then some v else lookupRole rest r

/-- Lookup in a string-valued dict, i.e. `d.get(n)` on the `name` map. -/
def lookupStr (m : List (String × String)) (n : String) : Option String :=
  match m with
  | [] => none
  | (k, v) :: rest => if k = n then some v else lookupStr rest n

/-- The placeholder substituted by `str.format(name=...)` in a `with_name`
template (the literal text is an opening brace, `name`, a closing brace). -/
def namePlaceholder : String := "\x7bname\x7d"

/-- Python `begin.format(name=v)` on a `with_name` template. -/
def pyFormatName (s v : String) : String :=
  s.replace namePlaceholder v

/-- Python truthiness of `merged_prompt.get('fallback_role')`: the key is
present and its value is a nonempty string. -/
def fallbackTruthy (cfg : RoleConfig) : Bool :=
  match cfg.fallback_role with
  | some s => !s.isEmpty
  | none => false

/-- `LMTemplateParser._format_begin(role_cfg, message)`.  The first
argument is `Option` because the source can pass `None` (after a dangling
`fallback_role` lookup); subscripting / attribute access on `None` then
raises `TypeError` / `AttributeError`. -/
def format_begin (role_cfg : Option RoleConfig) (name : Option String) :
    Except PyErr String :=
  match role_cfg, name with
  | none, some _ => .error .typeError
  | none, none => .error .attributeError
  | some cfg, some n =>
    match cfg.begin_ with
    | none => .error (.keyError "begin")
    | some (.str _) => .error .attributeError
    | some (.dict wn nm _) =>
      let b := wn.getD ""
      match lookupStr nm n with
      | some v => .ok (pyFormatName b v)
      | none => .ok (pyFormatName b n)
  | some cfg, none =>
    match cfg.begin_ with
    | none => .ok ""
    | some (.str s) => .ok s
    | some (.dict _ _ won) => .ok (won.getD "")

/-- The part of `_prompt2str` that runs after the role config has been
resolved (`merged_prompt` = `mc`): begin phrase, generate short-circuit,
end suffix, and assistant priming for a terminal non-assistant turn. -/
def mergedRender (roles : List (String × RoleConfig)) (mc : RoleConfig)
    (content : Option String) (name : Option String) (last : Bool) :
    Except PyErr String :=
  match format_begin (some mc) name with
  | .error e => .error e
  | .ok b =>
    if last && mc.generate.getD false then .ok (b ++ content.getD "")
    else
      let res := b ++ content.getD "" ++ mc.end_.getD ""
      if last && (mc.role != "assistant") then
        match lookupRole roles "assistant" with
        | none => .error (.keyError "assistant")
        | some ac =>
          match format_begin (some ac) none with
          | .error e => .error e
          | .ok ab => .ok (res ++ ab)
      else .ok res

/-- `LMTemplateParser._prompt2str(prompt, last)`. -/
def prompt2str (roles : List (String × RoleConfig)) (prompt : Turn)
    (last : Bool) : Except PyErr String :=
  match prompt with
  | .str s => .ok s
  | .msg r c n =>
    match lookupRole roles r with
    | none => .error .attributeError
    | some cfg0 =>
      if fallbackTruthy cfg0 then
        match lookupRole roles (cfg0.fallback_role.getD "") with
        | none =>
          .error (match n with | some _ => .typeError | none => .attributeError)
        | some mc => mergedRender roles mc c n last
      else mergedRender roles cfg0 c n last

/-- One-hop role resolution: `self.roles.get(prompt['role'])` followed by
the single `fallback_role` redirection, yielding the `merged_prompt`
config (or `none` when either lookup fails). -/
def resolveMerged (roles : List (String × RoleConfig)) (r : String) :
    Option RoleConfig :=
  match lookupRole roles r with
  | none => none
  | some cfg0 =>
    if fallbackTruthy cfg0 then lookupRole roles (cfg0.fallback_role.getD "")
    else some cfg0

/-- The `for index, item in enumerate(dialog)` accumulation loop of
`__call__`: raw strings are appended verbatim, other turns go through
`_prompt2str` with `last` true exactly for the final element. -/
def renderLoop (roles : List (String × RoleConfig)) :
    List Turn → String → Except PyErr String
  | [], acc => .ok acc
  | t :: rest, acc =>
    match t with
    | .str s => renderLoop roles rest (acc ++ s)
    | .msg r c n =>
      match prompt2str roles (.msg r c n) rest.isEmpty with
      | .error e => .error e
      | .ok s => renderLoop roles rest (acc ++ s)

/-- The same loop with `last` fixed to `false` for every turn; used to
describe the rendering of the non-terminal prefix of a dialogue. -/
def renderInit (roles : List (String × RoleConfig)) :
    List Turn → String → Except PyErr String
  | [], acc => .ok acc
  | t :: rest, acc =>
    match t with
    | .str s => renderInit roles rest (acc ++ s)
    | .msg r c n =>
      match prompt2str roles (.msg r c n) false with
      | .error e => .error e
      | .ok s => renderInit roles rest (acc ++ s)

/-- The state of a constructed `LMTemplateParser`: the raw constructor
argument (used for truthiness tests) and the `roles` table (only built
when the meta-template is truthy). -/
structure LMTemplateParser where
  meta_template : Option (List RoleConfig)
  roles : List (String × RoleConfig)
deriving DecidableEq, Repr

/-- The role-table construction loop of `LMTemplateParser.__init__`:
each item's role must not already be present, else the
`'role in meta prompt must be unique!'` assertion fires. -/
def buildRoles : List RoleConfig → List (String × RoleConfig) →
    Except PyErr (List (String × RoleConfig))
  | [], acc => .ok acc
  | item :: rest, acc =>
    if item.role ∈ acc.map Prod.fst then
      .error (.assertionError "role in meta prompt must be unique!")
    else buildRoles rest (acc ++ [(item.role, item)])

/-- `LMTemplateParser.__init__(meta_template)`.  A falsy meta-template
(`None` or the empty list) skips role-table construction entirely. -/
def LMTemplateParser.init (meta : Option (List RoleConfig)) :
    Except PyErr LMTemplateParser :=
  match meta with
  | none => .ok ⟨none, []⟩
  | some l =>
    if l.isEmpty then .ok ⟨some l, []⟩
    else
      match buildRoles l [] with
      | .error e => .error e
      | .ok rs => .ok ⟨some l, rs⟩

/-- `LMTemplateParser.__call__(dialog)`.  A plain string is returned
unchanged; with a truthy meta-template the dialogue is rendered by the
accumulation loop; otherwise the function falls through to
`return prompt` with `prompt` never assigned (`UnboundLocalError`). -/
def LMTemplateParser.call (p : LMTemplateParser) (dialog : Dialog) :
    Except PyErr String :=
  match dialog with
  | .str s => .ok s
  | .list ts =>
    match p.meta_template with
    | some l =>
      if l.isEmpty then .error .unboundLocal
      else renderLoop p.roles ts ""
    | none => .error .unboundLocal

/-- One outcome of `requests.post` + `raw_response.json()` + the
`response['choices'][0]['message']['content']` access inside `_chat`'s
`try` block, as observed by the exception handlers. -/
inductive NetResult where
  | connectionError
  | jsonDecodeError (content : String)
  | success (text : String)
  | apiError (code : String)
  | malformedResponse
  | otherException (msg : String)
deriving DecidableEq, Repr

/-- The mutable `GPTAPI` instance state read and written by `_chat`'s
retry loop, plus bookkeeping: `retries` is the loop's `max_num_retries`
counter, `errmsg` its last diagnostic, and `attempts` counts the HTTP
posts actually issued. -/
structure LoopSt where
  key_ctr : Nat
  invalid_keys : List String
  org_ctr : Nat
  retries : Nat
  errmsg : String
  attempts : Nat
deriving DecidableEq, Repr

/-- The key-selection `while True` loop of `_chat`: advance `key_ctr`,
wrap on equality with `len(keys)`, break on the first key not in
`invalid_keys`.  The fuel argument bounds the number of passes; `none`
for fuel `keys.length` (enough to visit every index) models the Python
loop never breaking. -/
def findValidKey (keys invalid : List String) : Nat → Nat → Option Nat
  | _, 0 => none
  | ctr, fuel + 1 =>
    let c1 := ctr + 1
    let c := if c1 = keys.length then 0 else c1
    if keys.getD c "" ∈ invalid then findValidKey keys invalid c fuel
    else some c

/-- Result of running `_chat`'s `while max_num_retries < self.retry`
loop: provider success, the `'All keys have insufficient quota.'`
`RuntimeError`, the final budget-exhausted `RuntimeError`, divergence of
the key-selection loop, or the iteration fuel running out (the retry loop
itself still spinning). -/
inductive RunRes where
  | success (text : String) (st : LoopSt)
  | allInvalid (st : LoopSt)
  | exhausted (errmsg : String) (st : LoopSt)
  | stuck (st : LoopSt)
  | fuelOut (st : LoopSt)
deriving DecidableEq, Repr

/-- The retry loop of `GPTAPI._chat` (lines 75-134).  `net n` is the
outcome of the `n`-th HTTP post.  Faithful control flow: the
`ConnectionError`, `JSONDecodeError`, `rate_limit_exceeded` and
`insufficient_quota` handlers all `continue` back to the loop header
WITHOUT executing `max_num_retries += 1`; only an unrecognized provider
error, a `KeyError` without an `error` field, and the generic `except
Exception` handler reach the increment. -/
def runChat (retry : Nat) (keys orgs : List String) (net : Nat → NetResult) :
    Nat → LoopSt → RunRes
  | 0, st => .fuelOut st
  | fuel + 1, st =>
    if st.retries < retry then
      if st.invalid_keys.length = keys.length then .allInvalid st
      else
        match findValidKey keys st.invalid_keys st.key_ctr keys.length with
        | none => .stuck st
        | some i =>
          let key := keys.getD i ""
          let oc := if orgs.isEmpty then st.org_ctr
            else if st.org_ctr + 1 = orgs.length then 0 else st.org_ctr + 1
          let st2 : LoopSt :=
            { st with key_ctr := i, org_ctr := oc, attempts := st.attempts + 1 }
          match net st.attempts with
          | .success t => .success t.trim st2
          | .connectionError =>
            runChat retry keys orgs net fuel
              { st2 with errmsg := "Got connection error" }
          | .jsonDecodeError c =>
            runChat retry keys orgs net fuel
              { st2 with errmsg := "JsonDecode error, got " ++ c }
          | .apiError code =>
            if code = "rate_limit_exceeded" then
              runChat retry keys orgs net fuel st2
            else if code = "insufficient_quota" then
              runChat retry keys orgs net fuel
                { st2 with invalid_keys :=
                    if key ∈ st2.invalid_keys then st2.invalid_keys
                    else key :: st2.invalid_keys }
            else
              runChat retry keys orgs net fuel
                { st2 with
                    errmsg := "Find error message in response: " ++ code,
                    retries := st2.retries + 1 }
          | .malformedResponse =>
            runChat retry keys orgs net fuel { st2 with retries := st2.retries + 1 }
          | .otherException m =>
            runChat retry keys orgs net fuel { st2 with errmsg := m, retries := st2.retries + 1 }
    else .exhausted st.errmsg st

/-- A mock endpoint that always raises `requests.ConnectionError`. -/
def netConn : Nat → NetResult := fun _ => NetResult.connectionError

/-- A mock endpoint that always returns a provider success. -/
def netT : Nat → NetResult := fun _ => NetResult.success "t"

/-- The request body assembled by `generate_request_data` (only the
fields the embedded control flow depends on are carried). -/
structure RequestData where
  model : String
  messages : String
  n : Nat
  json_object : Bool
deriving DecidableEq, Repr

/-- `GPTAPI.generate_request_data`.  `gen_params` models the keyword
dict received by `_chat`; only the `max_new_tokens` entry influences
control flow: `gen_params.pop('max_new_tokens')` raises `KeyError` when
the key is absent (which is exactly what `chat` passes).  A non-positive
token budget returns the degenerate `('', '')` pair (modelled `ok none`);
an unrecognized model family raises `NotImplementedError`. -/
def generate_request_data (model_type : String) (messages : String)
    (gen_params : Option Int) (json_mode : Bool) :
    Except PyErr (Option RequestData) :=
  match gen_params with
  | none => .error (.keyError "max_new_tokens")
  | some v =>
    let max_tokens := min v 4096
    if max_tokens ≤ 0 then .ok none
    else if model_type.toLower.startsWith "gpt"
        || model_type.toLower.startsWith "qwen" then
      .ok (some ⟨model_type, messages, 1, json_mode⟩)
    else if model_type.toLower.startsWith "internlm" then
      .ok (some ⟨model_type, messages, 1, json_mode⟩)
    else
      .error (.notImplementedError ("Model type " ++ model_type ++ " is not supported"))

/-- Constructor data of a `GPTAPI` instance used by `chat` / `_chat`. -/
structure GPTConfig where
  model_type : String
  retry : Nat
  json_mode : Bool
  keys : List String
  orgs : List String
deriving DecidableEq, Repr

/-- What one `executor.submit(self._chat, messages)` task produces:
a returned string, a raised exception, or no result at all (the task
never finishes because one of `_chat`'s loops diverges / fuel ran out). -/
inductive TaskOutcome where
  | ret (s : String)
  | exn (e : PyErr)
  | hung
deriving DecidableEq, Repr

/-- `GPTAPI._chat(messages, **gen_params)`: render through the injected
template parser `tp`, build the request (raising `KeyError` /
`NotImplementedError` as in the source), then run the retry loop from the
instance state `st`.  Both `RuntimeError` raises of the loop surface as
exceptions with the source's messages. -/
def chatOne (cfg : GPTConfig) (tp : List Turn → Except PyErr String)
    (net : Nat → NetResult) (fuel : Nat) (st : LoopSt) (gen_params : Option Int)
    (messages : List Turn) : TaskOutcome :=
  match tp messages with
  | .error e => .exn e
  | .ok rendered =>
    match generate_request_data cfg.model_type rendered gen_params cfg.json_mode with
    | .error e => .exn e
    | .ok _ =>
      match runChat cfg.retry cfg.keys cfg.orgs net fuel st with
      | .success t _ => .ret t
      | .allInvalid _ => .exn (.runtimeError "All keys have insufficient quota.")
      | .exhausted msg st2 =>
        .exn (.runtimeError ("Calling OpenAI failed after retrying for "
          ++ toString st2.retries ++ " times. Check the logs for details. errmsg: " ++ msg))
      | .stuck _ => .hung
      | .fuelOut _ => .hung

/-- Argument shape of `GPTAPI.chat`: `inputs[0]` a dict means a single
dialogue, otherwise a list of dialogues. -/
inductive ChatInputs where
  | single (msgs : List Turn)
  | batch (ds : List (List Turn))
deriving DecidableEq, Repr

/-- Result of `GPTAPI.chat`: `ret[0]` for the single-dialogue overload, a
list for a batch, a propagated exception, or a hang. -/
inductive BatchOutcome where
  | retOne (s : String)
  | retList (l : List String)
  | exn (e : PyErr)
  | hung
deriving DecidableEq, Repr

/-- The `ret = [task.result() for task in tasks]` collection: results are
gathered in task-submission order and `task.result()` re-raises the
task's exception (waiting forever on a hung task). -/
def collectResults : List TaskOutcome → BatchOutcome
  | [] => .retList []
  | TaskOutcome.ret s :: rest =>
    match collectResults rest with
    | .retList l => .retList (s :: l)
    | o => o
  | TaskOutcome.exn e :: _ => .exn e
  | TaskOutcome.hung :: _ => .hung

/-- `GPTAPI.chat(inputs)`: submit one `_chat` per dialogue (passing NO
generation keyword arguments, hence `gen_params = none` for every task)
and collect the results in input order. -/
def chat (cfg : GPTConfig) (tp : List Turn → Except PyErr String)
    (net : Nat → NetResult) (fuel : Nat) (st : LoopSt) :
    ChatInputs → BatchOutcome
  | .single msgs =>
    match chatOne cfg tp net fuel st none msgs with
    | .ret s => .retOne s
    | .exn e => .exn e
    | .hung => .hung
  | .batch ds => collectResults (ds.map (chatOne cfg tp net fuel st none))

/-- Shared-state view of two workers concurrently executing the
key-selection critical section of `_chat` (`self.key_ctr` read-modify-
write plus key choice).  Each worker performs two atomic sub-steps: first
read the shared cursor into a local (`loc`), then commit: run the
cyclic-advance computation from the read value, store the new cursor and
record the selected index (`sel`). -/
structure RaceState where
  ctr : Nat
  loc1 : Option Nat := none
  loc2 : Option Nat := none
  sel1 : Option Nat := none
  sel2 : Option Nat := none
deriving DecidableEq, Repr

/-- One scheduled action of worker 1 (`w = true`) or worker 2
(`w = false`): its read if still pending, else its commit. -/
def raceStep (keys invalid : List String) (s : RaceState) (w : Bool) : RaceState :=
  if w then
    match s.loc1, s.sel1 with
    | none, _ => { s with loc1 := some s.ctr }
    | some v, none =>
      match findValidKey keys invalid v keys.length with
      | some i => { s with ctr := i, sel1 := some i }
      | none => s
    | some _, some _ => s
  else
    match s.loc2, s.sel2 with
    | none, _ => { s with loc2 := some s.ctr }
    | some v, none =>
      match findValidKey keys invalid v keys.length with
      | some i => { s with ctr := i, sel2 := some i }
      | none => s
    | some _, some _ => s

/-- Run a schedule (a list of worker ids) over the shared state. -/
def raceRun (keys invalid : List String) (sched : List Bool) (s : RaceState) :
    RaceState :=
  sched.foldl (raceStep keys invalid) s

/-- Lock admissibility of a schedule.  Worker 1 brackets its two actions
with acquire/release of lock `lock1`, worker 2 with `lock2`; an acquire
of a lock currently held (by the other worker) blocks, making the
schedule inadmissible.  `held` is the set of held locks, `p1`/`p2` count
each worker's completed actions.  The source's `with Lock():` allocates a
FRESH lock object per entry, so its two workers hold distinct locks
(`lock1 ≠ lock2`); the spec demands one shared per-instance lock
(`lock1 = lock2`). -/
def admissibleGo (lock1 lock2 : Nat) :
    List Bool → List Nat → Nat → Nat → Bool
  | [], _, _, _ => true
  | w :: rest, held, p1, p2 =>
    if w then
      match p1 with
      | 0 => if lock1 ∈ held then false
             else admissibleGo lock1 lock2 rest (lock1 :: held) 1 p2
      | 1 => admissibleGo lock1 lock2 rest (held.erase lock1) 2 p2
      | _ => false
    else
      match p2 with
      | 0 => if lock2 ∈ held then false
             else admissibleGo lock1 lock2 rest (lock2 :: held) p1 1
      | 1 => admissibleGo lock1 lock2 rest (held.erase lock2) p1 2
      | _ => false

/-- A schedule is admissible for a given lock assignment when every
acquire succeeds. -/
def admissible (lock1 lock2 : Nat) (sched : List Bool) : Bool :=
  admissibleGo lock1 lock2 sched [] 0 0

/-- Helper: rendering a dialogue that ends in a structured turn splits
into the non-terminal prefix (all rendered with `last = false`) followed
by the terminal turn rendered with `last = true`. -/
theorem renderLoop_append_msg (roles : List (String × RoleConfig))
    (init : List Turn) (r : String) (c n : Option String) (acc : String) :
    renderLoop roles (init ++ [Turn.msg r c n]) acc =
      match renderInit roles init acc with
      | .error e => .error e
      | .ok s =>
        match prompt2str roles (.msg r c n) true with
        | .error e => .error e
        | .ok t => .ok (s ++ t) := by
  induction init generalizing acc with
  | nil =>
    simp only [List.nil_append, renderLoop, renderInit, List.isEmpty_nil]
  | cons t rest ih =>
    cases t with
    | str s =>
      simp only [List.cons_append, renderLoop, renderInit]
      exact ih (acc ++ s)
    | msg r2 c2 n2 =>
      have hne : (rest ++ [Turn.msg r c n]).isEmpty = false := by
        cases rest <;> rfl
      simp only [List.cons_append, renderLoop, renderInit, List.append_eq, hne]
      cases hp : prompt2str roles (Turn.msg r2 c2 n2) false with
      | error e => simp only [hp]
      | ok s => simp only [hp]; exact ih (acc ++ s)

/-- Helper: when one-hop resolution of a turn's role succeeds,
`_prompt2str` renders through the resolved config. -/
theorem prompt2str_eq_mergedRender (roles : List (String × RoleConfig))
    (r : String) (c n : Option String) (last : Bool) (mc : RoleConfig)
    (h : resolveMerged roles r = some mc) :
    prompt2str roles (.msg r c n) last = mergedRender roles mc c n last := by
  unfold resolveMerged at h
  unfold prompt2str
  cases h0 : lookupRole roles r with
  | none => rw [h0] at h; cases h
  | some cfg0 =>
    rw [h0] at h
    by_cases hf : fallbackTruthy cfg0
    · simp only [hf, if_true] at h
      simp only [h0, hf, if_true, h]
    · simp only [hf, if_false, Bool.false_eq_true] at h
      cases h
      simp only [h0, hf, Bool.false_eq_true, if_false]

/-- C7: if `render` is given a plain string it returns that exact string
unchanged, for every constructed parser (every role table). -/
theorem c7_string_passthrough (p : LMTemplateParser) (s : String) :
    p.call (Dialog.str s) = .ok s := rfl

/-- C10: for a non-string (list) dialogue, a parser constructed with
`meta_template = None` never returns a rendered string: `__call__` falls
through to `return prompt` with the accumulator unassigned, raising
`UnboundLocalError`. -/
theorem c10_no_meta_unbound (p : LMTemplateParser)
    (h : p.meta_template = none) (ts : List Turn) :
    p.call (Dialog.list ts) = .error PyErr.unboundLocal := by
  unfold LMTemplateParser.call
  rw [h]

/-- C10 witness: concrete parser with no meta-template and a concrete
one-turn dialogue. -/
theorem c10_no_meta_unbound_witness :
    LMTemplateParser.call ⟨none, []⟩
      (Dialog.list [Turn.msg "user" (some "hi") none]) =
    .error PyErr.unboundLocal :=
  c10_no_meta_unbound ⟨none, []⟩ rfl [Turn.msg "user" (some "hi") none]

/-- C8: construction fails with the uniqueness assertion whenever the
meta-template contains two entries sharing a role name (helper, general
accumulator: the error also fires when a pending role already sits in the
accumulated table). -/
theorem buildRoles_error_of_dup (l : List RoleConfig) :
    ∀ acc, (¬ (l.map RoleConfig.role).Nodup
        ∨ ∃ r, r ∈ l.map RoleConfig.role ∧ r ∈ acc.map Prod.fst) →
      buildRoles l acc = .error (.assertionError "role in meta prompt must be unique!") := by
  induction l with
  | nil =>
    intro acc h
    rcases h with h | ⟨r, hr, _⟩
    · exact absurd List.nodup_nil h
    · simp at hr
  | cons item rest ih =>
    intro acc h
    by_cases hmem : item.role ∈ acc.map Prod.fst
    · simp [buildRoles, hmem]
    · simp only [buildRoles, if_neg hmem]
      apply ih
      rcases h with h | ⟨r, hr, hacc⟩
      · rw [List.map_cons, List.nodup_cons] at h
        by_cases h2 : item.role ∈ rest.map RoleConfig.role
        · exact Or.inr ⟨item.role, h2, by simp⟩
        · exact Or.inl fun hnd => h ⟨h2, hnd⟩
      · rw [List.map_cons, List.mem_cons] at hr
        rcases hr with hr | hr
        · exact absurd (hr ▸ hacc) hmem
        · exact Or.inr ⟨r, hr, by simp [hacc]⟩

/-- Helper: construction succeeds when all accumulated and pending role
names are distinct. -/
theorem buildRoles_ok_of_nodup (l : List RoleConfig) :
    ∀ acc, (acc.map Prod.fst ++ l.map RoleConfig.role).Nodup →
      ∃ rs, buildRoles l acc = .ok rs := by
  induction l with
  | nil => exact fun acc _ => ⟨acc, rfl⟩
  | cons item rest ih =>
    intro acc h
    have hmem : item.role ∉ acc.map Prod.fst := by
      have hd := List.disjoint_of_nodup_append h
      intro hin
      exact hd hin (by simp)
    simp only [buildRoles, if_neg hmem]
    apply ih
    have he : (acc ++ [(item.role, item)]).map Prod.fst ++ rest.map RoleConfig.role
        = acc.map Prod.fst ++ (item :: rest).map RoleConfig.role := by
      simp
    rw [he]
    exact h

/-- C8: for every meta-template in which two entries share a role name,
`LMTemplateParser.__init__` fails with the construction-time assertion
`'role in meta prompt must be unique!'` (the spec's `ConfigError`). -/
theorem c8_duplicate_roles_fail (meta : List RoleConfig)
    (h : ¬ (meta.map RoleConfig.role).Nodup) :
    LMTemplateParser.init (some meta) =
      .error (.assertionError "role in meta prompt must be unique!") := by
  cases meta with
  | nil => exact absurd (by simp) h
  | cons a l =>
    simp only [LMTemplateParser.init]
    rw [if_neg (by simp)]
    rw [buildRoles_error_of_dup (a :: l) [] (Or.inl h)]

/-- C8 witness: a concrete meta-template with a duplicated role name. -/
theorem c8_duplicate_roles_fail_witness :
    LMTemplateParser.init (some [⟨"user", none, none, none, none⟩,
        ⟨"user", none, none, none, none⟩]) =
      .error (.assertionError "role in meta prompt must be unique!") :=
  c8_duplicate_roles_fail _ (by decide)

/-- C9: the claim requires every cursor read-modify-write to run inside a
single shared per-instance critical section, but `_chat` executes
`with Lock():` on a freshly constructed lock at each entry, so no two
acquisitions ever contend.  In the two-worker semantics: the fully
interleaved schedule (read, read, commit, commit) is admissible under the
code's distinct-fresh-locks discipline and makes both workers select the
same key index 1 from the two-key pool, while under one shared lock that
schedule is inadmissible, and the serialized schedule selects two
distinct keys. -/
theorem c9_fresh_lock_no_mutual_exclusion :
    admissible 1 2 [true, false, true, false] = true
    ∧ admissible 0 0 [true, false, true, false] = false
    ∧ (raceRun ["k0", "k1"] [] [true, false, true, false] { ctr := 0 }).sel1 = some 1
    ∧ (raceRun ["k0", "k1"] [] [true, false, true, false] { ctr := 0 }).sel2 = some 1
    ∧ admissible 1 2 [true, true, false, false] = true
    ∧ (raceRun ["k0", "k1"] [] [true, true, false, false] { ctr := 0 }).sel1 = some 1
    ∧ (raceRun ["k0", "k1"] [] [true, true, false, false] { ctr := 0 }).sel2 = some 0 := by
  decide

/-- C5: if the last turn of a dialogue resolves (with one-hop fallback)
to a config flagged `generate`, the rendered prompt is the prefix
rendering followed by that turn's begin phrase and raw content only — no
end suffix is appended and nothing follows. -/
theorem c5_terminal_generate (p : LMTemplateParser) (l : List RoleConfig)
    (hm : p.meta_template = some l) (hne : l.isEmpty = false)
    (init : List Turn) (r : String) (c n : Option String) (mc : RoleConfig)
    (hmc : resolveMerged p.roles r = some mc)
    (hgen : mc.generate.getD false = true)
    (b : String) (hb : format_begin (some mc) n = .ok b)
    (s0 : String) (h0 : renderInit p.roles init "" = .ok s0) :
    p.call (Dialog.list (init ++ [Turn.msg r c n])) = .ok (s0 ++ (b ++ c.getD "")) := by
  simp only [LMTemplateParser.call, hm, hne, Bool.false_eq_true, if_false]
  rw [renderLoop_append_msg, prompt2str_eq_mergedRender p.roles r c n true mc hmc]
  simp only [h0, mergedRender, hb, hgen, Bool.and_self, if_true]

/-- C5 witness data: single-role meta-template for an assistant flagged
`generate`. -/
def metaC5 : List RoleConfig :=
  [⟨"assistant", some (.str "<A>"), some "</A>", none, some true⟩]

/-- C5 witness data: the parser `__init__` builds from `metaC5`. -/
def pC5 : LMTemplateParser :=
  ⟨some metaC5,
   [("assistant", ⟨"assistant", some (.str "<A>"), some "</A>", none, some true⟩)]⟩

/-- C5 witness: a dialogue of a single assistant turn flagged `generate`
renders to begin + content with no trailing end suffix. -/
theorem c5_terminal_generate_witness :
    LMTemplateParser.init (some metaC5) = .ok pC5
    ∧ pC5.call (Dialog.list [Turn.msg "assistant" (some "hello") none]) =
        .ok "<A>hello" := by
  refine ⟨rfl, ?_⟩
  have h := c5_terminal_generate pC5 metaC5 rfl rfl [] "assistant" (some "hello") none
    ⟨"assistant", some (.str "<A>"), some "</A>", none, some true⟩ rfl rfl
    "<A>" rfl "" rfl
  exact h

/-- C6 (amended): if the last turn's RESOLVED config has a role other
than `assistant` and is not flagged `generate`, the rendered prompt ends
with the assistant role's no-name begin phrase appended after that turn's
begin + content + end. -/
theorem c6_prime_assistant (p : LMTemplateParser) (l : List RoleConfig)
    (hm : p.meta_template = some l) (hne : l.isEmpty = false)
    (init : List Turn) (r : String) (c n : Option String) (mc : RoleConfig)
    (hmc : resolveMerged p.roles r = some mc)
    (hgen : mc.generate.getD false = false)
    (hrole : mc.role ≠ "assistant")
    (b : String) (hb : format_begin (some mc) n = .ok b)
    (ac : RoleConfig) (hac : lookupRole p.roles "assistant" = some ac)
    (ab : String) (hab : format_begin (some ac) none = .ok ab)
    (s0 : String) (h0 : renderInit p.roles init "" = .ok s0) :
    p.call (Dialog.list (init ++ [Turn.msg r c n])) =
      .ok (s0 ++ (b ++ c.getD "" ++ mc.end_.getD "" ++ ab)) := by
  simp only [LMTemplateParser.call, hm, hne, Bool.false_eq_true, if_false]
  rw [renderLoop_append_msg, prompt2str_eq_mergedRender p.roles r c n true mc hmc]
  have hcond : (true && (mc.role != "assistant")) = true := by
    simp [bne_iff_ne, hrole]
  simp only [h0, mergedRender, hb, hgen, Bool.and_false, Bool.false_eq_true, if_false,
    hcond, if_true, hac, hab]

/-- C6 witness data: the spec's example meta-template. -/
def metaC6 : List RoleConfig :=
  [⟨"system", some (.str "<S>"), some "</S>", none, none⟩,
   ⟨"user", some (.str "<U>"), some "</U>", none, none⟩,
   ⟨"assistant", some (.str "<A>"), some "</A>", none, some true⟩]

/-- C6 witness data: the parser built from `metaC6`. -/
def pC6 : LMTemplateParser :=
  ⟨some metaC6,
   [("system", ⟨"system", some (.str "<S>"), some "</S>", none, none⟩),
    ("user", ⟨"user", some (.str "<U>"), some "</U>", none, none⟩),
    ("assistant", ⟨"assistant", some (.str "<A>"), some "</A>", none, some true⟩)]⟩

/-- C6 witness: the spec's example system/user dialogue renders to
`<S>x</S><U>y</U><A>`. -/
theorem c6_prime_assistant_witness :
    LMTemplateParser.init (some metaC6) = .ok pC6
    ∧ pC6.call (Dialog.list [Turn.msg "system" (some "x") none,
        Turn.msg "user" (some "y") none]) = .ok "<S>x</S><U>y</U><A>" := by
  refine ⟨rfl, ?_⟩
  have h := c6_prime_assistant pC6 metaC6 rfl rfl [Turn.msg "system" (some "x") none]
    "user" (some "y") none ⟨"user", some (.str "<U>"), some "</U>", none, none⟩
    rfl rfl (by decide) "<U>" rfl
    ⟨"assistant", some (.str "<A>"), some "</A>", none, some true⟩ rfl "<A>" rfl
    "<S>x</S>" rfl
  exact h

/-- C6 counterexample data: a meta-template whose `user` role falls back
to `assistant`. -/
def metaC6x : List RoleConfig :=
  [⟨"user", none, none, some "assistant", none⟩,
   ⟨"assistant", some (.str "<A>"), some "</A>", none, none⟩]

/-- C6 counterexample data: the parser built from `metaC6x`. -/
def pC6x : LMTemplateParser :=
  ⟨some metaC6x,
   [("user", ⟨"user", none, none, some "assistant", none⟩),
    ("assistant", ⟨"assistant", some (.str "<A>"), some "</A>", none, none⟩)]⟩

/-- C6 counterexample: the last turn's role (`user`) is not the assistant
role and its resolved config is not flagged `generate`, yet — because the
code compares the RESOLVED config's role, which here is `assistant` via
the fallback — no assistant begin phrase is appended: the output is
`<A>y</A>`, not begin + content + end + `<A>`. -/
theorem c6_counterexample :
    LMTemplateParser.init (some metaC6x) = .ok pC6x
    ∧ ("user" == "assistant") = false
    ∧ resolveMerged pC6x.roles "user"
        = some ⟨"assistant", some (.str "<A>"), some "</A>", none, none⟩
    ∧ (⟨"assistant", some (.str "<A>"), some "</A>", none, none⟩
        : RoleConfig).generate.getD false = false
    ∧ pC6x.call (Dialog.list [Turn.msg "user" (some "y") none]) = .ok "<A>y</A>"
    ∧ ("<A>y</A>" == "<A>" ++ "y" ++ "</A>" ++ "<A>") = false := by
  exact ⟨rfl, by decide, rfl, rfl, rfl, by decide⟩

/-- C4 (amended): a dangling `fallback_role` is NOT rejected at
construction time — `__init__` succeeds for every duplicate-free
meta-template — and the dangling reference instead surfaces as an
unhandled render-time error (`TypeError`/`AttributeError` from the `None`
returned by the fallback lookup) in `_prompt2str`. -/
theorem c4_fallback_not_checked :
    (∀ meta : List RoleConfig, meta ≠ [] → (meta.map RoleConfig.role).Nodup →
      (LMTemplateParser.init (some meta)).isOk = true)
    ∧ (∀ (roles : List (String × RoleConfig)) (r : String) (cfg0 : RoleConfig)
        (c n : Option String) (last : Bool),
        lookupRole roles r = some cfg0 → fallbackTruthy cfg0 = true →
        lookupRole roles (cfg0.fallback_role.getD "") = none →
        prompt2str roles (.msg r c n) last =
          .error (match n with | some _ => PyErr.typeError | none => PyErr.attributeError)) := by
  constructor
  · intro meta hne hnd
    cases meta with
    | nil => exact absurd rfl hne
    | cons a l =>
      simp only [LMTemplateParser.init]
      rw [if_neg (by simp)]
      obtain ⟨rs, hrs⟩ := buildRoles_ok_of_nodup (a :: l) [] (by simpa using hnd)
      rw [hrs]
      rfl
  · intro roles r cfg0 c n last h1 h2 h3
    simp only [prompt2str, h1, h2, if_true, h3]

/-- C4 counterexample data: a one-role meta-template whose
`fallback_role` names a role (`ghost`) absent from the table. -/
def metaC4 : List RoleConfig :=
  [⟨"user", some (.str "<U>"), some "</U>", some "ghost", none⟩]

/-- C4 counterexample data: the parser built from `metaC4`. -/
def pC4 : LMTemplateParser :=
  ⟨some metaC4,
   [("user", ⟨"user", some (.str "<U>"), some "</U>", some "ghost", none⟩)]⟩

/-- C4 counterexample: construction of a parser over a meta-template with
a dangling `fallback_role` SUCCEEDS (no `ConfigError`), and the dangling
reference only fails later, during `render`. -/
theorem c4_counterexample :
    LMTemplateParser.init (some metaC4) = .ok pC4
    ∧ lookupRole pC4.roles "ghost" = none
    ∧ pC4.call (Dialog.list [Turn.msg "user" (some "hi") none]) =
        .error PyErr.attributeError :=
  ⟨rfl, rfl, rfl⟩

/-- C4 witness: the amended theorem applied to the concrete dangling-
fallback template. -/
theorem c4_fallback_not_checked_witness :
    (LMTemplateParser.init (some metaC4)).isOk = true
    ∧ prompt2str pC4.roles (.msg "user" (some "hi") none) true =
        .error PyErr.attributeError := by
  refine ⟨c4_fallback_not_checked.1 metaC4 (by decide) (by decide), ?_⟩
  exact c4_fallback_not_checked.2 pC4.roles "user"
    ⟨"user", some (.str "<U>"), some "</U>", some "ghost", none⟩
    (some "hi") none true rfl rfl rfl

/-- C3 (amended): (1) the key-selection loop never returns a key in the
invalidated set; (2) when every key (including every duplicate) is
invalidated, the selection loop finds no key under ANY fuel — i.e. the
Python `while True` never breaks; (3) when the key list is
duplicate-free, the invalidated set is a set of keys covering the whole
list, and retry budget remains, `_chat` fails with the
`'All keys have insufficient quota.'` `RuntimeError` immediately — the
state (and so the attempt count) is untouched, no network call is issued,
and the loop ends. -/
theorem c3_key_rotation :
    (∀ (keys inv : List String) (ctr fuel i : Nat),
        findValidKey keys inv ctr fuel = some i → keys.getD i "" ∉ inv)
    ∧ (∀ (keys inv : List String) (ctr : Nat) (fuel : Nat), ctr < keys.length →
        (∀ k, k ∈ keys → k ∈ inv) → findValidKey keys inv ctr fuel = none)
    ∧ (∀ (retry : Nat) (keys orgs : List String) (net : Nat → NetResult)
        (fuel : Nat) (st : LoopSt), keys.Nodup → st.invalid_keys.Nodup →
        (∀ k, k ∈ st.invalid_keys → k ∈ keys) →
        (∀ k, k ∈ keys → k ∈ st.invalid_keys) →
        st.retries < retry →
        runChat retry keys orgs net (fuel + 1) st = RunRes.allInvalid st) := by
  refine ⟨?_, ?_, ?_⟩
  · intro keys inv ctr fuel
    induction fuel generalizing ctr with
    | zero => intro i h; simp [findValidKey] at h
    | succ fuel ih =>
      intro i h
      simp only [findValidKey] at h
      by_cases hmem : keys.getD (if ctr + 1 = keys.length then 0 else ctr + 1) "" ∈ inv
      · rw [if_pos hmem] at h
        exact ih _ i h
      · rw [if_neg hmem] at h
        injection h with h2
        subst h2
        exact hmem
  · intro keys inv ctr fuel
    induction fuel generalizing ctr with
    | zero => intro _ _; rfl
    | succ fuel ih =>
      intro hc hall
      have hlen : 0 < keys.length := Nat.lt_of_le_of_lt (Nat.zero_le ctr) hc
      simp only [findValidKey]
      by_cases h1 : ctr + 1 = keys.length
      · rw [if_pos h1]
        have hmem : keys.getD 0 "" ∈ keys := by
          rw [List.getD_eq_getElem _ _ hlen]
          exact List.getElem_mem _
        rw [if_pos (hall _ hmem)]
        exact ih 0 hlen hall
      · rw [if_neg h1]
        have hlt : ctr + 1 < keys.length :=
          Nat.lt_of_le_of_ne (Nat.succ_le_of_lt hc) h1
        have hmem : keys.getD (ctr + 1) "" ∈ keys := by
          rw [List.getD_eq_getElem _ _ hlt]
          exact List.getElem_mem _
        rw [if_pos (hall _ hmem)]
        exact ih (ctr + 1) hlt hall
  · intro retry keys orgs net fuel st hk hinv hsub hsup hlt
    have hlen : st.invalid_keys.length = keys.length := by
      have h1 : st.invalid_keys.toFinset = keys.toFinset := by
        ext a
        simp only [List.mem_toFinset]
        exact ⟨fun h => hsub a h, fun h => hsup a h⟩
      calc st.invalid_keys.length
          = st.invalid_keys.toFinset.card := (List.toFinset_card_of_nodup hinv).symm
        _ = keys.toFinset.card := by rw [h1]
        _ = keys.length := List.toFinset_card_of_nodup hk
    simp only [runChat]
    rw [if_pos hlt, if_pos hlen]

/-- C3 counterexample data: pool state with the duplicated key list
`['a', 'a']` and the single key value `'a'` already invalidated. -/
def stDup : LoopSt := ⟨0, ["a"], 0, 0, "", 0⟩

/-- C3 counterexample: with keys `['a', 'a']` every key IS in the
invalidated set, yet `len(invalid) == len(keys)` is `1 == 2`, so the
all-invalid check does not fire and the selection loop spins forever
(`stuck`) instead of failing with the exhausted-credentials error. -/
theorem c3_counterexample :
    stDup.invalid_keys.contains "a" = true
    ∧ runChat 2 ["a", "a"] [] netT 3 stDup = RunRes.stuck stDup
    ∧ (RunRes.stuck stDup == RunRes.allInvalid stDup) = false
    ∧ findValidKey ["a", "a"] stDup.invalid_keys 0 2 = none :=
  ⟨rfl, rfl, by decide, rfl⟩

/-- C3 witness data: both distinct keys invalidated. -/
def stAll : LoopSt := ⟨0, ["x", "y"], 0, 0, "", 0⟩

/-- C3 witness: the amended theorem applied at concrete inputs — the
selection loop finds no key at any fuel once every key is invalidated
(here for the duplicated pool), and an all-invalid duplicate-free pool
fails with the exhausted-credentials error without touching the state. -/
theorem c3_key_rotation_witness :
    findValidKey ["a", "a"] stDup.invalid_keys 0 5 = none
    ∧ runChat 1 ["x", "y"] [] netT 1 stAll = RunRes.allInvalid stAll := by
  constructor
  · exact c3_key_rotation.2.1 ["a", "a"] stDup.invalid_keys 0 5 (by decide) (by decide)
  · exact c3_key_rotation.2.2 1 ["x", "y"] [] netT 0 stAll
      (by decide) (by decide) (by decide) (by decide) (by decide)

/-- The state transformation one always-connection-error pass of the
retry loop applies (single-key pool): record the diagnostic, issue one
more HTTP attempt, leave `max_num_retries` untouched. -/
def connState (st : LoopSt) : LoopSt :=
  { st with key_ctr := 0, attempts := st.attempts + 1,
            errmsg := "Got connection error" }

/-- Helper for C1: one pass of the retry loop over an endpoint that
always raises `requests.ConnectionError` records the diagnostic and loops
WITHOUT incrementing `max_num_retries` (the `continue` skips the
increment). -/
theorem runChat_conn_step (N fuel : Nat) (hN : 0 < N) (st : LoopSt)
    (h1 : st.retries = 0) (h2 : st.key_ctr = 0) (h3 : st.invalid_keys = []) :
    runChat N ["mock-key"] [] netConn (fuel + 1) st =
      runChat N ["mock-key"] [] netConn fuel (connState st) := by
  simp only [runChat, h1, h2, h3, connState]
  rw [if_pos hN]
  simp [findValidKey, netConn]

/-- C1: for every retry budget `N > 0` and an endpoint that always
raises a transient transport error, the retry loop of `_chat` is still
running after ANY number of iterations, with `max_num_retries` still 0
and one HTTP attempt issued per iteration: the budget is never consumed,
the loop never terminates, and `DispatchFailed` is never raised —
refuting "each non-success pass consumes one retry unit; after N
attempts send fails with DispatchFailed". -/
theorem c1_transport_error_unbounded (N : Nat) (hN : 0 < N) (f : Nat) :
    ∀ st : LoopSt, st.retries = 0 → st.key_ctr = 0 → st.invalid_keys = [] →
      runChat N ["mock-key"] [] netConn (f + 1) st
          = RunRes.fuelOut (connState^[f + 1] st)
        ∧ (connState^[f + 1] st).retries = 0
        ∧ (connState^[f + 1] st).attempts = st.attempts + (f + 1) := by
  induction f with
  | zero =>
    intro st h1 h2 h3
    rw [runChat_conn_step N 0 hN st h1 h2 h3]
    rw [Function.iterate_one]
    exact ⟨rfl, h1, rfl⟩
  | succ f ih =>
    intro st h1 h2 h3
    rw [runChat_conn_step N (f + 1) hN st h1 h2 h3]
    rw [Function.iterate_succ_apply]
    obtain ⟨he, hr, ha⟩ := ih (connState st) h1 rfl h3
    refine ⟨he, hr, ?_⟩
    have ha2 : (connState^[f + 1] (connState st)).attempts
        = st.attempts + 1 + (f + 1) := ha
    omega

/-- Initial `_chat` loop state: fresh instance, no invalidated keys, no
attempts yet. -/
def st0 : LoopSt := ⟨0, [], 0, 0, "", 0⟩

/-- C1 witness: retry budget 2, always-connection-error endpoint — after
5 loop iterations the loop is still running with 5 HTTP attempts issued
and zero budget consumed. -/
theorem c1_transport_error_unbounded_witness :
    runChat 2 ["mock-key"] [] netConn 5 st0 = RunRes.fuelOut (connState^[5] st0)
    ∧ (connState^[5] st0).retries = 0
    ∧ (connState^[5] st0).attempts = st0.attempts + 5 :=
  c1_transport_error_unbounded 2 (by decide) 4 st0 rfl rfl rfl

/-- C2 (amended): `chat` evaluates one `_chat` task per dialogue and
collects results in input order, but a per-item exception is re-raised by
`task.result()`, aborting the whole batch; and since `chat` forwards no
generation keyword arguments, every item's request building raises
`KeyError('max_new_tokens')` (unless the template parser raised first),
so `chat` on a nonempty batch always raises instead of returning a
result list. -/
theorem c2_batch_raises (cfg : GPTConfig) (tp : List Turn → Except PyErr String)
    (net : Nat → NetResult) (fuel : Nat) (st : LoopSt) (d : List Turn)
    (ds : List (List Turn)) :
    chat cfg tp net fuel st (.batch (d :: ds)) =
      .exn (match tp d with
        | .error e => e
        | .ok _ => PyErr.keyError "max_new_tokens") := by
  cases h : tp d with
  | error e => simp [chat, chatOne, h, collectResults]
  | ok s => simp [chat, chatOne, h, generate_request_data, collectResults]

/-- C2 counterexample data: a supported-model dispatcher config. -/
def cfgC2 : GPTConfig := ⟨"gpt-4o-mini", 2, false, ["k"], []⟩

/-- C2 counterexample data: a template parser that renders every
dialogue successfully. -/
def tpOK : List Turn → Except PyErr String := fun _ => .ok "rendered"

/-- C2 counterexample data: an endpoint that always succeeds (it is
never reached). -/
def netOK : Nat → NetResult := fun _ => NetResult.success "ok"

/-- C2 counterexample: a 3-dialogue batch does NOT produce a 3-element
result list — `chat` raises (first conjunct, the faithful composition:
`KeyError('max_new_tokens')` from request building); and the
`task.result()` collection discipline turns any mid-batch task exception
(e.g. `UnsupportedModel`/`NotImplementedError` for dialogue 2) into a
raised exception rather than a failure value in a list (second
conjunct). -/
theorem c2_counterexample :
    chat cfgC2 tpOK netOK 8 st0
        (.batch [[Turn.msg "user" (some "a") none],
                 [Turn.msg "user" (some "b") none],
                 [Turn.msg "user" (some "c") none]]) =
      .exn (PyErr.keyError "max_new_tokens")
    ∧ collectResults [TaskOutcome.ret "r1",
        TaskOutcome.exn (PyErr.notImplementedError "Model type llama is not supported"),
        TaskOutcome.ret "r3"] =
      .exn (PyErr.notImplementedError "Model type llama is not supported") :=
  ⟨rfl, rfl⟩
